import Mathlib

/-!
Verification development for the anthem-formulary-extractor repository.

The repository's visible source is the orchestration layer `main.py`
(`process_pdf`, `main`).  The extraction core (`extract_pdf_tables.
extract_structured_data`) and the spreadsheet renderer
(`create_excel_from_json`) are external modules not present in the
source tree; where a claim depends on them they are modelled from the
specification (Line Classifier output, Hierarchy Builder state machine,
TOC Indexer, Extraction Coordinator of spec sections 4.1 to 4.4).
Machine integers do not overflow in any of the modelled code, so `Nat`
and `Int` are used directly.
-/

namespace Formulary

/-- Roles assigned by the Line Classifier (spec section 4.1): a closed
tagged-variant enumeration. -/
inductive Role where
  | CATEGORY_HEADER
  | SUBCATEGORY_HEADER
  | DATA_ROW
  | TOC_ENTRY
  | NOISE
deriving DecidableEq, Repr

/-- Warning reasons (spec section 7, enumerated causes). -/
inductive Reason where
  | malformed_row
  | row_before_subcategory
  | subcategory_without_category
deriving DecidableEq, Repr

/-- A row: an ordered mapping of column name to cell value, values kept
as strings (spec section 3). -/
abbrev Row : Type := List (String × String)

/-- Modelled from the spec: one classified logical line as produced by
the Line Classifier (spec section 4.1), the input contract of the
Hierarchy Builder and Extraction Coordinator.  `cells` is the
column/value parse used when the role is `DATA_ROW`; `malformed`
records that column alignment disagrees with the active grid beyond
tolerance; `pageRef` is the trailing page reference of a TOC entry. -/
structure Line where
  role : Role
  text : String
  page : Nat
  malformed : Bool
  cells : Row
  pageRef : String
deriving DecidableEq, Repr

structure SubCategory where
  name : String
  rows : List Row
deriving DecidableEq, Repr

structure Category where
  name : String
  subCategories : List SubCategory
deriving DecidableEq, Repr

structure Warning where
  pageNumber : Nat
  rawText : String
  reason : Reason
deriving DecidableEq, Repr

structure TOCEntry where
  label : String
  pageReference : String
deriving DecidableEq, Repr

/-- The root aggregate returned by extraction (spec section 3): exactly
the three arrays `categories`, `warnings`, `table_of_contents`. -/
structure ExtractionResult where
  categories : List Category
  warnings : List Warning
  table_of_contents : List TOCEntry
deriving DecidableEq, Repr

/-- The open context of the Hierarchy Builder state machine
(spec section 4.2): `no_open_category`, `category_open` (name of the
open category plus its already-closed subcategories), or
`subcategory_open` (additionally the open subcategory's name and the
rows gathered so far). -/
inductive OpenCtx where
  | no_open_category
  | category_open (catName : String) (doneSubs : List SubCategory)
  | subcategory_open (catName : String) (doneSubs : List SubCategory)
      (subName : String) (rows : List Row)
deriving DecidableEq, Repr

/-- Reserved placeholder name for the synthetic category opened when a
subcategory header arrives with no category context (spec section 4.2). -/
def syntheticCategoryName : String := "[UNCATEGORIZED]"

structure BuilderState where
  doneCats : List Category
  ctx : OpenCtx
  warnings : List Warning
deriving DecidableEq, Repr

/-- Closing the open context yields zero or one finished categories
(spec section 4.2: end of document or a new category header implicitly
closes any open subcategory/category). -/
def closedOf : OpenCtx → List Category
  | .no_open_category => []
  | .category_open n subs => [⟨n, subs⟩]
  | .subcategory_open n subs sn rs => [⟨n, subs ++ [⟨sn, rs⟩]⟩]

/-- Whether the builder is in the `subcategory_open` state. -/
def OpenCtx.subcategoryOpen : OpenCtx → Bool
  | .subcategory_open _ _ _ _ => true
  | _ => false

/-- Modelled from the spec: one transition of the Hierarchy Builder
state machine (spec section 4.2), for a single classified line.  The
builder never receives `TOC_ENTRY` lines (the coordinator dispatches
those to the indexer or drops them); that arm and `NOISE` leave the
state unchanged. -/
def buildStep (s : BuilderState) (l : Line) : BuilderState :=
  match l.role with
  | .CATEGORY_HEADER =>
      { doneCats := s.doneCats ++ closedOf s.ctx
        ctx := .category_open l.text []
        warnings := s.warnings }
  | .SUBCATEGORY_HEADER =>
      match s.ctx with
      | .no_open_category =>
          { s with
            ctx := .subcategory_open syntheticCategoryName [] l.text []
            warnings := s.warnings ++
              [⟨l.page, l.text, .subcategory_without_category⟩] }
      | .category_open n subs =>
          { s with ctx := .subcategory_open n subs l.text [] }
      | .subcategory_open n subs sn rs =>
          { s with ctx := .subcategory_open n (subs ++ [⟨sn, rs⟩]) l.text [] }
  | .DATA_ROW =>
      match s.ctx with
      | .subcategory_open n subs sn rs =>
          if l.malformed then
            { s with warnings := s.warnings ++
                [⟨l.page, l.text, .malformed_row⟩] }
          else
            { s with ctx := .subcategory_open n subs sn (rs ++ [l.cells]) }
      | _ =>
          { s with warnings := s.warnings ++
              [⟨l.page, l.text, .row_before_subcategory⟩] }
  | .TOC_ENTRY => s
  | .NOISE => s

/-- Coordinator state: the builder, the TOC list, and the front-matter
mode flag (spec sections 4.3 and 4.4). -/
structure CoordState where
  builder : BuilderState
  toc : List TOCEntry
  frontMatter : Bool
deriving DecidableEq, Repr

def coordInit : CoordState :=
  { builder := { doneCats := [], ctx := .no_open_category, warnings := [] }
    toc := []
    frontMatter := true }

/-- Modelled from the spec: one step of the Extraction Coordinator
(spec section 4.4): `TOC_ENTRY` lines go to the indexer while in
front-matter mode and are otherwise dropped; all other roles go to the
Hierarchy Builder; the first `CATEGORY_HEADER` permanently ends
front-matter mode. -/
def coordStep (s : CoordState) (l : Line) : CoordState :=
  match l.role with
  | .TOC_ENTRY =>
      if s.frontMatter then
        { s with toc := s.toc ++ [⟨l.text, l.pageRef⟩] }
      else s
  | .CATEGORY_HEADER =>
      { builder := buildStep s.builder l
        toc := s.toc
        frontMatter := false }
  | _ => { s with builder := buildStep s.builder l }

def processLines (s : CoordState) (ls : List Line) : CoordState :=
  ls.foldl coordStep s

/-- Assemble the final result from the coordinator state, implicitly
closing any open subcategory/category (spec section 4.2, end of
document). -/
def assemble (s : CoordState) : ExtractionResult :=
  { categories := s.builder.doneCats ++ closedOf s.builder.ctx
    warnings := s.builder.warnings
    table_of_contents := s.toc }

/-- Modelled from the spec: `extract_structured_data` from the missing
module `extract_pdf_tables`, at the level of classified lines.  The
document is a list of pages, each page an ordered list of classified
lines; pages are driven strictly in order and the coordinator state is
carried across page boundaries (spec section 4.4). -/
def extract_structured_data (pages : List (List Line)) : ExtractionResult :=
  assemble (pages.foldl processLines coordInit)

/-- Extraction over a pre-flattened line stream, used to state
cross-page continuity. -/
def extractFromLines (ls : List Line) : ExtractionResult :=
  assemble (processLines coordInit ls)

/-! ### JSON interchange encoding (spec section 6) -/

/-- A JSON value, as serialised by `json.dump` in `process_pdf`. -/
inductive Json where
  | str : String → Json
  | num : Int → Json
  | arr : List Json → Json
  | obj : List (String × Json) → Json

def Reason.toText : Reason → String
  | .malformed_row => "malformed_row"
  | .row_before_subcategory => "row_before_subcategory"
  | .subcategory_without_category => "subcategory_without_category"

def Row.toJson (r : Row) : Json :=
  .obj (r.map fun p => (p.1, .str p.2))

def SubCategory.toJson (s : SubCategory) : Json :=
  .obj [("name", .str s.name), ("rows", .arr (s.rows.map Row.toJson))]

def Category.toJson (c : Category) : Json :=
  .obj [("name", .str c.name),
        ("subCategories", .arr (c.subCategories.map SubCategory.toJson))]

def Warning.toJson (w : Warning) : Json :=
  .obj [("pageNumber", .num (Int.ofNat w.pageNumber)),
        ("rawText", .str w.rawText),
        ("reason", .str w.reason.toText)]

def TOCEntry.toJson (t : TOCEntry) : Json :=
  .obj [("label", .str t.label), ("pageReference", .str t.pageReference)]

/-- The serialised forms of the three arrays of an `ExtractionResult`. -/
def encodeResult (r : ExtractionResult) : Json × Json × Json :=
  (.arr (r.categories.map Category.toJson),
   .arr (r.warnings.map Warning.toJson),
   .arr (r.table_of_contents.map TOCEntry.toJson))

/-! ### Orchestration layer, embedded from `src/main.py` -/

/-- An observable file-system/renderer effect of `process_pdf`
(`src/main.py`).  `writeJson` is one `json.dump` of a payload to a
named file in the document's output directory; `attemptExcel` is the
call to `create_excel_from_json`; `excelCreated` and `excelCaught`
are its two outcomes (success, or an exception caught by the
`except ImportError` / `except Exception` arms at lines 102-109). -/
inductive PdfEvent where
  | writeJson (filename : String) (payload : Json)
  | attemptExcel (filename : String)
  | excelCreated (filename : String)
  | excelCaught (message : String)

def PdfEvent.isWriteJson : PdfEvent → Bool
  | .writeJson _ _ => true
  | _ => false

/-- The three JSON writes of `process_pdf` (`src/main.py` lines 40-52),
in program order: `extracted_data.json` gets `data["categories"]`,
`extraction_warnings.json` gets `data["warnings"]`,
`table_of_contents.json` gets `data["table_of_contents"]`. -/
def jsonWrites (data : ExtractionResult) : List PdfEvent :=
  [.writeJson "extracted_data.json"
      (.arr (data.categories.map Category.toJson)),
   .writeJson "extraction_warnings.json"
      (.arr (data.warnings.map Warning.toJson)),
   .writeJson "table_of_contents.json"
      (.arr (data.table_of_contents.map TOCEntry.toJson))]

/-- A document handed to `process_pdf`: the stem of its file name and
either the classified pages its text yields, or the message of the
exception the extractor raises when the document is unreadable (the
fatal failure of spec section 7; `extract_structured_data` is called
at `src/main.py` line 38 with no surrounding `try`). -/
structure PdfDoc where
  stem : String
  content : Except String (List (List Line))

/-- The trace of effects of the body of `process_pdf` after extraction
succeeded (`src/main.py` lines 40-109): the three JSON writes, then —
unless `json_only` — the `create_excel_from_json` call, whose
exception (modelled by `excelFails = some message`) is caught so the
function still returns normally. -/
def pdfTrace (stem : String) (data : ExtractionResult) (json_only : Bool)
    (excelFails : Option String) : List PdfEvent :=
  let ws := jsonWrites data
  if json_only then ws
  else
    let xlsx := stem ++ ".xlsx"
    match excelFails with
    | none => ws ++ [.attemptExcel xlsx, .excelCreated xlsx]
    | some m => ws ++ [.attemptExcel xlsx, .excelCaught m]

/-- Embedded from `process_pdf` (`src/main.py` lines 20-109): an
unreadable document makes `extract_structured_data` raise and the
exception propagates (no handler around line 38); otherwise the
effects of `pdfTrace` happen and the call returns normally. -/
def process_pdf (doc : PdfDoc) (json_only : Bool)
    (excelFails : Option String) : Except String (List PdfEvent) :=
  match doc.content with
  | .error e => .error e
  | .ok pages =>
      .ok (pdfTrace doc.stem (extract_structured_data pages)
            json_only excelFails)

/-- Embedded from the batch loop of `main` (`src/main.py` lines
187-189): documents are processed strictly in order by bare calls to
`process_pdf`; there is no `try` around the call, so an exception
raised for one document aborts the loop.  Returns the per-document
traces produced before any failure, and the message of the first
uncaught exception if one occurred. -/
def main_batch (docs : List PdfDoc) (json_only : Bool)
    (excelFails : Option String) : List (List PdfEvent) × Option String :=
  match docs with
  | [] => ([], none)
  | d :: ds =>
      match process_pdf d json_only excelFails with
      | .error e => ([], some e)
      | .ok t =>
          let r := main_batch ds json_only excelFails
          (t :: r.1, r.2)

/-! ### Counting helpers for the conservation and lifecycle claims -/

/-- Total number of rows held by a list of subcategories. -/
def subsRowCount (subs : List SubCategory) : Nat :=
  (subs.map fun s => s.rows.length).sum

/-- Total number of rows held anywhere under a list of categories. -/
def catsRowCount (cats : List Category) : Nat :=
  (cats.map fun c => subsRowCount c.subCategories).sum

/-- Rows held by the open context. -/
def ctxRowCount : OpenCtx → Nat
  | .no_open_category => 0
  | .category_open _ subs => subsRowCount subs
  | .subcategory_open _ subs _ rs => subsRowCount subs + rs.length

def builderRowCount (s : BuilderState) : Nat :=
  catsRowCount s.doneCats + ctxRowCount s.ctx

/-- `sum(len(subcat.rows))` over every subcategory of the result. -/
def totalRows (r : ExtractionResult) : Nat :=
  catsRowCount r.categories

/-- Whether a warning accounts for a dropped candidate data line
(reason `malformed_row` or `row_before_subcategory`). -/
def Warning.isDataLoss (w : Warning) : Bool :=
  match w.reason with
  | .malformed_row => true
  | .row_before_subcategory => true
  | .subcategory_without_category => false

def dataWarnCount (ws : List Warning) : Nat :=
  (ws.filter Warning.isDataLoss).length

def Line.isDataRow (l : Line) : Bool :=
  match l.role with
  | .DATA_ROW => true
  | _ => false

def Line.isSubHeader (l : Line) : Bool :=
  match l.role with
  | .SUBCATEGORY_HEADER => true
  | _ => false

def Line.isCatHeader (l : Line) : Bool :=
  match l.role with
  | .CATEGORY_HEADER => true
  | _ => false

/-- Whether a warning records the opening of a synthetic category
(reason `subcategory_without_category`): the only way a category node
is ever created other than by a `CATEGORY_HEADER` line. -/
def Warning.isSynthetic (w : Warning) : Bool :=
  match w.reason with
  | .subcategory_without_category => true
  | _ => false

def synthWarnCount (ws : List Warning) : Nat :=
  (ws.filter Warning.isSynthetic).length

/-- Number of lines classified as `DATA_ROW` candidates. -/
def dataRowCount (ls : List Line) : Nat :=
  (ls.filter Line.isDataRow).length

/-- Total number of subcategory nodes under a list of categories. -/
def catsSubCount (cats : List Category) : Nat :=
  (cats.map fun c => c.subCategories.length).sum

/-- Subcategory nodes held by the open context (the open subcategory
counts as one). -/
def ctxSubCount : OpenCtx → Nat
  | .no_open_category => 0
  | .category_open _ subs => subs.length
  | .subcategory_open _ subs _ _ => subs.length + 1

def builderSubCount (s : BuilderState) : Nat :=
  catsSubCount s.doneCats + ctxSubCount s.ctx

def totalSubCats (r : ExtractionResult) : Nat :=
  catsSubCount r.categories

/-- Number of lines classified as `SUBCATEGORY_HEADER`. -/
def subHeaderCount (ls : List Line) : Nat :=
  (ls.filter Line.isSubHeader).length

/-- Number of lines classified as `CATEGORY_HEADER`. -/
def catHeaderCount (ls : List Line) : Nat :=
  (ls.filter Line.isCatHeader).length

/-- Category nodes held by the open context (the open category counts
as one). -/
def ctxCatCount : OpenCtx → Nat
  | .no_open_category => 0
  | .category_open _ _ => 1
  | .subcategory_open _ _ _ _ => 1

def builderCatCount (s : BuilderState) : Nat :=
  s.doneCats.length + ctxCatCount s.ctx

/-- Total number of category nodes in the result. -/
def totalCats (r : ExtractionResult) : Nat :=
  r.categories.length

/-! ### Concrete sample lines and documents for scenario claims -/

def hdr (name : String) (pg : Nat) : Line :=
  ⟨.CATEGORY_HEADER, name, pg, false, [], ""⟩

def subhdr (name : String) (pg : Nat) : Line :=
  ⟨.SUBCATEGORY_HEADER, name, pg, false, [], ""⟩

def rowLine (cells : Row) (pg : Nat) : Line :=
  ⟨.DATA_ROW, "row", pg, false, cells, ""⟩

def tocLine (label ref : String) (pg : Nat) : Line :=
  ⟨.TOC_ENTRY, label, pg, false, [], ref⟩

/-- A document whose text extraction raises (fatal failure). -/
def badDoc : PdfDoc := ⟨"corrupt", .error "PdfReadError: unreadable"⟩

/-- A healthy single-page document with one category, one subcategory
and one row. -/
def goodDoc : PdfDoc :=
  ⟨"fine", .ok [[hdr "Antibiotics" 1, subhdr "Penicillins" 1,
                 rowLine [("Drug", "Amoxicillin")] 1]]⟩

/-- A second healthy document, used as the sibling after a failure in
batch-mode scenarios. -/
def goodDoc2 : PdfDoc := ⟨"fine2", .ok [[tocLine "Index" "2" 1]]⟩

/-- The persistence property of claim C9: `process_pdf` returns
normally and its JSON writes are exactly the three named files, each
carrying one of the three arrays of the extraction result
(`src/main.py` lines 40-52). -/
def writesThreeFiles (doc : PdfDoc) (pages : List (List Line))
    (json_only : Bool) (excelFails : Option String) : Prop :=
  ∃ t, process_pdf doc json_only excelFails = .ok t
    ∧ t.filter PdfEvent.isWriteJson
        = [.writeJson "extracted_data.json"
             (.arr ((extract_structured_data pages).categories.map
               Category.toJson)),
           .writeJson "extraction_warnings.json"
             (.arr ((extract_structured_data pages).warnings.map
               Warning.toJson)),
           .writeJson "table_of_contents.json"
             (.arr ((extract_structured_data pages).table_of_contents.map
               TOCEntry.toJson))]

/-- The JSON shapes of spec section 6: categories are
`{name, subCategories}` objects over `{name, rows}` subcategory
objects; warnings are `{pageNumber, rawText, reason}` objects; TOC
entries are `{label, pageReference}` objects. -/
def encodersHaveSpecifiedShape : Prop :=
  (∀ c : Category, Category.toJson c
      = .obj [("name", .str c.name),
              ("subCategories",
               .arr (c.subCategories.map SubCategory.toJson))])
  ∧ (∀ sc : SubCategory, SubCategory.toJson sc
      = .obj [("name", .str sc.name),
              ("rows", .arr (sc.rows.map Row.toJson))])
  ∧ (∀ w : Warning, Warning.toJson w
      = .obj [("pageNumber", .num (Int.ofNat w.pageNumber)),
              ("rawText", .str w.rawText),
              ("reason", .str w.reason.toText)])
  ∧ (∀ t : TOCEntry, TOCEntry.toJson t
      = .obj [("label", .str t.label),
              ("pageReference", .str t.pageReference)])

/-! ### Shared counting lemmas -/

theorem subsRowCount_append (a b : List SubCategory) :
    subsRowCount (a ++ b) = subsRowCount a + subsRowCount b := by
  simp [subsRowCount]

theorem catsRowCount_append (a b : List Category) :
    catsRowCount (a ++ b) = catsRowCount a + catsRowCount b := by
  simp [catsRowCount]

theorem catsRowCount_closedOf (c : OpenCtx) :
    catsRowCount (closedOf c) = ctxRowCount c := by
  cases c <;>
    simp [closedOf, catsRowCount, ctxRowCount, subsRowCount]

theorem dataWarnCount_append (a b : List Warning) :
    dataWarnCount (a ++ b) = dataWarnCount a + dataWarnCount b := by
  simp [dataWarnCount]

theorem catsSubCount_append (a b : List Category) :
    catsSubCount (a ++ b) = catsSubCount a + catsSubCount b := by
  simp [catsSubCount]

theorem catsSubCount_closedOf (c : OpenCtx) :
    catsSubCount (closedOf c) = ctxSubCount c := by
  cases c <;>
    simp [closedOf, catsSubCount, ctxSubCount]

/-! ### Step invariants of the builder and coordinator -/

theorem buildStep_rows (s : BuilderState) (l : Line) :
    builderRowCount (buildStep s l) + dataWarnCount (buildStep s l).warnings
      = builderRowCount s + dataWarnCount s.warnings
        + (if l.isDataRow then 1 else 0) := by
  obtain ⟨dc, ctx, ws⟩ := s
  obtain ⟨role, text, page, malformed, cells, pageRef⟩ := l
  cases role <;> cases ctx <;> cases malformed <;>
    simp [buildStep, builderRowCount, Line.isDataRow, dataWarnCount_append,
      dataWarnCount, Warning.isDataLoss, catsRowCount_append,
      catsRowCount_closedOf, ctxRowCount, subsRowCount_append,
      subsRowCount] <;>
    omega

theorem coordStep_rows (s : CoordState) (l : Line) :
    builderRowCount (coordStep s l).builder
        + dataWarnCount (coordStep s l).builder.warnings
      = builderRowCount s.builder + dataWarnCount s.builder.warnings
        + (if l.isDataRow then 1 else 0) := by
  obtain ⟨b, toc, fm⟩ := s
  obtain ⟨role, text, page, malformed, cells, pageRef⟩ := l
  cases role
  case TOC_ENTRY => cases fm <;> simp [coordStep, Line.isDataRow]
  all_goals
    simpa [coordStep, Line.isDataRow] using
      buildStep_rows b ⟨_, text, page, malformed, cells, pageRef⟩

theorem processLines_rows (ls : List Line) (s : CoordState) :
    builderRowCount (processLines s ls).builder
        + dataWarnCount (processLines s ls).builder.warnings
      = builderRowCount s.builder + dataWarnCount s.builder.warnings
        + dataRowCount ls := by
  induction ls generalizing s with
  | nil => simp [processLines, dataRowCount]
  | cons l ls ih =>
      have hstep := coordStep_rows s l
      have htail := ih (coordStep s l)
      have hcur : processLines s (l :: ls) = processLines (coordStep s l) ls := rfl
      rw [hcur, htail, hstep]
      simp [dataRowCount, List.filter_cons]
      cases h : l.isDataRow <;> simp [h] <;> omega

theorem buildStep_subs (s : BuilderState) (l : Line) :
    builderSubCount (buildStep s l)
      = builderSubCount s + (if l.isSubHeader then 1 else 0) := by
  obtain ⟨dc, ctx, ws⟩ := s
  obtain ⟨role, text, page, malformed, cells, pageRef⟩ := l
  cases role <;> cases ctx <;> cases malformed <;>
    simp [buildStep, builderSubCount, Line.isSubHeader, catsSubCount_append,
      catsSubCount_closedOf, ctxSubCount] <;>
    omega

theorem coordStep_subs (s : CoordState) (l : Line) :
    builderSubCount (coordStep s l).builder
      = builderSubCount s.builder + (if l.isSubHeader then 1 else 0) := by
  obtain ⟨b, toc, fm⟩ := s
  obtain ⟨role, text, page, malformed, cells, pageRef⟩ := l
  cases role
  case TOC_ENTRY => cases fm <;> simp [coordStep, Line.isSubHeader]
  all_goals
    simpa [coordStep, Line.isSubHeader] using
      buildStep_subs b ⟨_, text, page, malformed, cells, pageRef⟩

theorem processLines_subs (ls : List Line) (s : CoordState) :
    builderSubCount (processLines s ls).builder
      = builderSubCount s.builder + subHeaderCount ls := by
  induction ls generalizing s with
  | nil => simp [processLines, subHeaderCount]
  | cons l ls ih =>
      have hstep := coordStep_subs s l
      have htail := ih (coordStep s l)
      have hcur : processLines s (l :: ls) = processLines (coordStep s l) ls := rfl
      rw [hcur, htail, hstep]
      simp [subHeaderCount, List.filter_cons]
      cases h : l.isSubHeader <;> simp [h] <;> omega

theorem synthWarnCount_append (a b : List Warning) :
    synthWarnCount (a ++ b) = synthWarnCount a + synthWarnCount b := by
  simp [synthWarnCount]

theorem length_closedOf (c : OpenCtx) :
    (closedOf c).length = ctxCatCount c := by
  cases c <;> simp [closedOf, ctxCatCount]

theorem buildStep_cats (s : BuilderState) (l : Line) :
    builderCatCount (buildStep s l) + synthWarnCount s.warnings
      = builderCatCount s + synthWarnCount (buildStep s l).warnings
        + (if l.isCatHeader then 1 else 0) := by
  obtain ⟨dc, ctx, ws⟩ := s
  obtain ⟨role, text, page, malformed, cells, pageRef⟩ := l
  cases role <;> cases ctx <;> cases malformed <;>
    simp [buildStep, builderCatCount, Line.isCatHeader,
      synthWarnCount_append, synthWarnCount, Warning.isSynthetic,
      length_closedOf, ctxCatCount] <;>
    omega

theorem coordStep_cats (s : CoordState) (l : Line) :
    builderCatCount (coordStep s l).builder
        + synthWarnCount s.builder.warnings
      = builderCatCount s.builder
        + synthWarnCount (coordStep s l).builder.warnings
        + (if l.isCatHeader then 1 else 0) := by
  obtain ⟨b, toc, fm⟩ := s
  obtain ⟨role, text, page, malformed, cells, pageRef⟩ := l
  cases role
  case TOC_ENTRY => cases fm <;> simp [coordStep, Line.isCatHeader]
  all_goals
    simpa [coordStep, Line.isCatHeader] using
      buildStep_cats b ⟨_, text, page, malformed, cells, pageRef⟩

theorem processLines_cats (ls : List Line) (s : CoordState) :
    builderCatCount (processLines s ls).builder
        + synthWarnCount s.builder.warnings
      = builderCatCount s.builder
        + synthWarnCount (processLines s ls).builder.warnings
        + catHeaderCount ls := by
  induction ls generalizing s with
  | nil => simp [processLines, catHeaderCount]
  | cons l ls ih =>
      have hstep := coordStep_cats s l
      have htail := ih (coordStep s l)
      have hcur : processLines s (l :: ls) = processLines (coordStep s l) ls :=
        rfl
      have hcnt : catHeaderCount (l :: ls)
          = (if l.isCatHeader then 1 else 0) + catHeaderCount ls := by
        simp [catHeaderCount, List.filter_cons]
        cases h : l.isCatHeader <;> simp [h] <;> omega
      rw [hcur, hcnt]
      omega

theorem totalCats_assemble (s : CoordState) :
    totalCats (assemble s) = builderCatCount s.builder := by
  simp [assemble, totalCats, length_closedOf, builderCatCount]

theorem foldl_processLines_join (pages : List (List Line)) (s : CoordState) :
    pages.foldl processLines s = processLines s pages.flatten := by
  induction pages generalizing s with
  | nil => simp [processLines]
  | cons p ps ih =>
      rw [List.foldl_cons, ih]
      show processLines (processLines s p) ps.flatten
        = processLines s (p ++ ps.flatten)
      simp [processLines, List.foldl_append]

theorem totalRows_assemble (s : CoordState) :
    totalRows (assemble s) = builderRowCount s.builder := by
  simp [assemble, totalRows, catsRowCount_append, catsRowCount_closedOf,
    builderRowCount]

theorem totalSubCats_assemble (s : CoordState) :
    totalSubCats (assemble s) = builderSubCount s.builder := by
  simp [assemble, totalSubCats, catsSubCount_append, catsSubCount_closedOf,
    builderSubCount]

theorem coordStep_body (s : CoordState) (l : Line)
    (h : s.frontMatter = false) :
    (coordStep s l).frontMatter = false ∧ (coordStep s l).toc = s.toc := by
  obtain ⟨b, toc, fm⟩ := s
  obtain ⟨role, text, page, malformed, cells, pageRef⟩ := l
  subst h
  cases role <;> simp [coordStep]

/-! ### Claim theorems -/

/-- Claim C1: for every document, the number of rows placed in the
hierarchy plus the number of warnings with reason `malformed_row` or
`row_before_subcategory` equals the total number of lines classified
as `DATA_ROW` candidates; no candidate data line is silently dropped
by `extract_structured_data`. -/
theorem claim_C1 (pages : List (List Line)) :
    totalRows (extract_structured_data pages)
      + dataWarnCount (extract_structured_data pages).warnings
      = dataRowCount pages.flatten := by
  unfold extract_structured_data
  rw [foldl_processLines_join, totalRows_assemble]
  have hw : (assemble (processLines coordInit pages.flatten)).warnings
      = (processLines coordInit pages.flatten).builder.warnings := rfl
  rw [hw]
  have h := processLines_rows pages.flatten coordInit
  simpa [coordInit, builderRowCount, catsRowCount, ctxRowCount,
    dataWarnCount] using h

/-- Claim C5: a closed Category or SubCategory node is never reopened.
Every `SUBCATEGORY_HEADER` line opens its own fresh subcategory node
(total subcategory nodes = number of `SUBCATEGORY_HEADER` lines), and
every category node comes from its own `CATEGORY_HEADER` line or its
own synthetic opening (total category nodes = number of
`CATEGORY_HEADER` lines plus `subcategory_without_category` warnings),
so a repeated header never merges into a closed node.  Concretely, a
repeated "Penicillins" subcategory header yields two distinct
SubCategory instances, and a repeated "Antibiotics" category header
yields two distinct Category instances, not merged nodes. -/
theorem claim_C5 :
    (∀ pages : List (List Line),
        totalSubCats (extract_structured_data pages)
          = subHeaderCount pages.flatten)
    ∧ (∀ pages : List (List Line),
        totalCats (extract_structured_data pages)
          = catHeaderCount pages.flatten
            + synthWarnCount (extract_structured_data pages).warnings)
    ∧ extract_structured_data
        [[hdr "Antibiotics" 1, subhdr "Penicillins" 1,
          subhdr "Cephalosporins" 1, subhdr "Penicillins" 7]]
      = ⟨[⟨"Antibiotics",
           [⟨"Penicillins", []⟩, ⟨"Cephalosporins", []⟩,
            ⟨"Penicillins", []⟩]⟩],
         [], []⟩
    ∧ extract_structured_data
        [[hdr "Antibiotics" 1, subhdr "Penicillins" 1,
          hdr "Analgesics" 2, hdr "Antibiotics" 9]]
      = ⟨[⟨"Antibiotics", [⟨"Penicillins", []⟩]⟩,
          ⟨"Analgesics", []⟩,
          ⟨"Antibiotics", []⟩],
         [], []⟩ := by
  refine ⟨?_, ?_, rfl, rfl⟩
  · intro pages
    unfold extract_structured_data
    rw [foldl_processLines_join, totalSubCats_assemble]
    have h := processLines_subs pages.flatten coordInit
    simpa [coordInit, builderSubCount, catsSubCount, ctxSubCount] using h
  · intro pages
    unfold extract_structured_data
    rw [foldl_processLines_join, totalCats_assemble]
    have hw : (assemble (processLines coordInit pages.flatten)).warnings
        = (processLines coordInit pages.flatten).builder.warnings := rfl
    rw [hw]
    have h := processLines_cats pages.flatten coordInit
    simp [coordInit, builderCatCount, ctxCatCount, synthWarnCount] at h ⊢
    omega

/-- Claim C6: builder state persists across page boundaries: a page
break never closes an open category or subcategory (extraction over
the page list equals extraction over the flattened line stream), and a
subcategory whose rows span two consecutive pages with no repeated
header yields exactly one SubCategory node holding both pages' rows in
page order. -/
theorem claim_C6 :
    (∀ pages : List (List Line),
        extract_structured_data pages = extractFromLines pages.flatten)
    ∧ extract_structured_data
        [[hdr "Antibiotics" 1, subhdr "Penicillins" 1,
          rowLine [("Drug", "Amoxicillin")] 1],
         [rowLine [("Drug", "Ampicillin")] 2]]
      = ⟨[⟨"Antibiotics",
           [⟨"Penicillins",
             [[("Drug", "Amoxicillin")], [("Drug", "Ampicillin")]]⟩]⟩],
         [], []⟩ := by
  refine ⟨fun pages => ?_, rfl⟩
  unfold extract_structured_data extractFromLines
  rw [foldl_processLines_join]

/-- Claim C7: a `DATA_ROW` line arriving while the builder is not in
the `subcategory_open` state only appends a `row_before_subcategory`
warning; the categories and open context are untouched, so the row is
appended to no subcategory. -/
theorem claim_C7 (s : BuilderState) (l : Line)
    (hrole : l.role = Role.DATA_ROW)
    (hopen : s.ctx.subcategoryOpen = false) :
    buildStep s l
      = { s with warnings := s.warnings
            ++ [⟨l.page, l.text, .row_before_subcategory⟩] } := by
  obtain ⟨dc, ctx, ws⟩ := s
  obtain ⟨role, text, page, malformed, cells, pageRef⟩ := l
  subst hrole
  cases ctx with
  | no_open_category => rfl
  | category_open n subs => rfl
  | subcategory_open n subs sn rs =>
      simp [OpenCtx.subcategoryOpen] at hopen

theorem claim_C7_witness :
    (rowLine [("Drug", "X")] 3).role = Role.DATA_ROW
    ∧ OpenCtx.subcategoryOpen
        (BuilderState.mk [] .no_open_category []).ctx = false
    ∧ buildStep ⟨[], .no_open_category, []⟩ (rowLine [("Drug", "X")] 3)
        = ⟨[], .no_open_category, [⟨3, "row", .row_before_subcategory⟩]⟩ :=
  ⟨rfl, rfl,
   claim_C7 ⟨[], .no_open_category, []⟩ (rowLine [("Drug", "X")] 3) rfl rfl⟩

/-- Claim C8: the first `CATEGORY_HEADER` permanently ends front-matter
mode: any step on a `CATEGORY_HEADER` line sets the flag false, once
false the flag stays false and the TOC list is frozen for the rest of
the document, and a `TOC_ENTRY` line never changes the hierarchy
builder, so TOC and hierarchy are built from disjoint sets of lines. -/
theorem claim_C8 :
    (∀ (s : CoordState) (l : Line), l.role = Role.CATEGORY_HEADER →
        (coordStep s l).frontMatter = false)
    ∧ (∀ (s : CoordState) (ls : List Line), s.frontMatter = false →
        (processLines s ls).frontMatter = false
        ∧ (processLines s ls).toc = s.toc)
    ∧ (∀ (s : CoordState) (l : Line), l.role = Role.TOC_ENTRY →
        (coordStep s l).builder = s.builder) := by
  refine ⟨?_, ?_, ?_⟩
  · intro s l hrole
    obtain ⟨b, toc, fm⟩ := s
    obtain ⟨role, text, page, malformed, cells, pageRef⟩ := l
    subst hrole
    rfl
  · intro s ls
    induction ls generalizing s with
    | nil => exact fun h => ⟨h, rfl⟩
    | cons l ls ih =>
        intro h
        have hb := coordStep_body s l h
        have ht := ih (coordStep s l) hb.1
        exact ⟨ht.1, ht.2.trans hb.2⟩
  · intro s l hrole
    obtain ⟨b, toc, fm⟩ := s
    obtain ⟨role, text, page, malformed, cells, pageRef⟩ := l
    subst hrole
    cases fm <;> simp [coordStep]

theorem claim_C8_witness :
    (coordStep coordInit (hdr "Antibiotics" 1)).frontMatter = false
    ∧ (processLines (coordStep coordInit (hdr "Antibiotics" 1))
          [tocLine "Index" "5" 2]).toc
        = (coordStep coordInit (hdr "Antibiotics" 1)).toc
    ∧ (coordStep coordInit (tocLine "Index" "5" 1)).builder
        = coordInit.builder :=
  ⟨claim_C8.1 coordInit (hdr "Antibiotics" 1) rfl,
   (claim_C8.2.1 (coordStep coordInit (hdr "Antibiotics" 1))
      [tocLine "Index" "5" 2]
      (claim_C8.1 coordInit (hdr "Antibiotics" 1) rfl)).2,
   claim_C8.2.2 coordInit (tocLine "Index" "5" 1) rfl⟩

/-- Claim C2: whenever extraction succeeds, `process_pdf` returns
normally with the three interchange JSON writes first in its effect
trace; everything after them (the `create_excel_from_json` attempt and
its outcome, including a caught exception) writes no JSON, so the
already-written JSON output stays intact even when rendering fails. -/
theorem claim_C2 (doc : PdfDoc) (pages : List (List Line))
    (h : doc.content = Except.ok pages)
    (json_only : Bool) (excelFails : Option String) :
    ∃ rest,
      process_pdf doc json_only excelFails
        = .ok (jsonWrites (extract_structured_data pages) ++ rest)
      ∧ ∀ e ∈ rest, e.isWriteJson = false := by
  obtain ⟨stem, content⟩ := doc
  subst h
  cases json_only with
  | true => exact ⟨[], by simp [process_pdf, pdfTrace], by simp⟩
  | false =>
      cases excelFails with
      | none =>
          refine ⟨[.attemptExcel (stem ++ ".xlsx"),
                   .excelCreated (stem ++ ".xlsx")],
                  by simp [process_pdf, pdfTrace], ?_⟩
          intro e he
          simp [List.mem_cons] at he
          rcases he with rfl | rfl <;> rfl
      | some m =>
          refine ⟨[.attemptExcel (stem ++ ".xlsx"), .excelCaught m],
                  by simp [process_pdf, pdfTrace], ?_⟩
          intro e he
          simp [List.mem_cons] at he
          rcases he with rfl | rfl <;> rfl

theorem claim_C2_witness :
    (PdfDoc.mk "doc" (.ok [[rowLine [("Drug", "X")] 1]])).content
        = Except.ok [[rowLine [("Drug", "X")] 1]]
    ∧ ∃ rest,
        process_pdf ⟨"doc", .ok [[rowLine [("Drug", "X")] 1]]⟩
            false (some "boom")
          = .ok (jsonWrites
              (extract_structured_data [[rowLine [("Drug", "X")] 1]]) ++ rest)
        ∧ ∀ e ∈ rest, e.isWriteJson = false :=
  ⟨rfl, claim_C2 ⟨"doc", .ok [[rowLine [("Drug", "X")] 1]]⟩
     [[rowLine [("Drug", "X")] 1]] rfl false (some "boom")⟩

/-- Claim C3 counterexample: the batch loop of `main` has no handler
around `process_pdf`, so on the concrete batch `[badDoc, goodDoc]` the
fatal failure of the first document aborts the loop: the run ends with
the uncaught exception and produces per-document output for neither
document — in particular the healthy sibling after the failing one is
never processed, refuting the claim that every document after a
failing one is still processed. -/
theorem claim_C3_counterexample :
    main_batch [badDoc, goodDoc] false none
        = ([], some "PdfReadError: unreadable")
    ∧ ¬ (main_batch [badDoc, goodDoc] false none).1.length = 2 :=
  ⟨rfl, by decide⟩

/-- Claim C3 as amended: in batch mode the documents before the first
failing one are processed normally, but a fatal extraction failure
propagates out of the bare `process_pdf` call in the loop
(`src/main.py` lines 187-189) and aborts the batch: no sibling after
the failing document is processed and the run ends with that
document's exception. -/
theorem claim_C3_amended (docsBefore : List PdfDoc) (failing : PdfDoc)
    (docsAfter : List PdfDoc) (e : String)
    (json_only : Bool) (excelFails : Option String)
    (hok : ∀ d ∈ docsBefore, ∃ pages, d.content = Except.ok pages)
    (hfail : failing.content = Except.error e) :
    main_batch (docsBefore ++ failing :: docsAfter) json_only excelFails
      = (docsBefore.map fun d =>
          match d.content with
          | .ok pages =>
              pdfTrace d.stem (extract_structured_data pages)
                json_only excelFails
          | .error _ => [],
         some e) := by
  induction docsBefore with
  | nil =>
      obtain ⟨stem, content⟩ := failing
      subst hfail
      simp [main_batch, process_pdf]
  | cons d ds ih =>
      obtain ⟨pages, hp⟩ := hok d (List.mem_cons_self d ds)
      have hok2 : ∀ d2 ∈ ds, ∃ pages, d2.content = Except.ok pages :=
        fun d2 hd2 => hok d2 (List.mem_cons_of_mem d hd2)
      obtain ⟨stem, content⟩ := d
      subst hp
      simp [main_batch, process_pdf, ih hok2]

theorem claim_C3_witness :
    (∀ d ∈ [goodDoc], ∃ pages, d.content = Except.ok pages)
    ∧ badDoc.content = Except.error "PdfReadError: unreadable"
    ∧ main_batch ([goodDoc] ++ badDoc :: [goodDoc2]) false none
        = ([goodDoc].map fun d =>
            match d.content with
            | .ok pages =>
                pdfTrace d.stem (extract_structured_data pages) false none
            | .error _ => [],
           some "PdfReadError: unreadable") := by
  have hok : ∀ d ∈ [goodDoc], ∃ pages, d.content = Except.ok pages := by
    intro d hd
    rw [List.mem_singleton] at hd
    subst hd
    exact ⟨_, rfl⟩
  exact ⟨hok, rfl,
    claim_C3_amended [goodDoc] badDoc [goodDoc2]
      "PdfReadError: unreadable" false none hok rfl⟩

/-- Claim C4: extraction is deterministic: the same classified input
stream always yields the same `ExtractionResult` and the same
serialised JSON, there being no unordered iteration anywhere in the
pipeline. -/
theorem claim_C4 (pages₁ pages₂ : List (List Line)) (h : pages₁ = pages₂) :
    extract_structured_data pages₁ = extract_structured_data pages₂
    ∧ encodeResult (extract_structured_data pages₁)
        = encodeResult (extract_structured_data pages₂) := by
  subst h
  exact ⟨rfl, rfl⟩

theorem claim_C4_witness :
    ([[hdr "Antibiotics" 1]] : List (List Line)) = [[hdr "Antibiotics" 1]]
    ∧ (extract_structured_data [[hdr "Antibiotics" 1]]
          = extract_structured_data [[hdr "Antibiotics" 1]]
       ∧ encodeResult (extract_structured_data [[hdr "Antibiotics" 1]])
          = encodeResult (extract_structured_data [[hdr "Antibiotics" 1]])) :=
  ⟨rfl, claim_C4 [[hdr "Antibiotics" 1]] [[hdr "Antibiotics" 1]] rfl⟩

/-- Claim C9: whenever extraction succeeds, the result carries exactly
the three arrays `categories`, `warnings` and `table_of_contents`;
`process_pdf` persists each to its own file (`extracted_data.json`,
`extraction_warnings.json`, `table_of_contents.json`), and the
serialisations have the JSON shapes of spec section 6. -/
theorem claim_C9 (doc : PdfDoc) (pages : List (List Line))
    (h : doc.content = Except.ok pages)
    (json_only : Bool) (excelFails : Option String) :
    writesThreeFiles doc pages json_only excelFails
    ∧ encodersHaveSpecifiedShape := by
  refine ⟨?_, fun c => rfl, fun sc => rfl, fun w => rfl, fun t => rfl⟩
  obtain ⟨stem, content⟩ := doc
  subst h
  refine ⟨pdfTrace stem (extract_structured_data pages) json_only excelFails,
    rfl, ?_⟩
  cases json_only <;> cases excelFails <;>
    simp [pdfTrace, jsonWrites, PdfEvent.isWriteJson, List.filter_append,
      List.filter]

theorem claim_C9_witness :
    goodDoc.content = Except.ok
        [[hdr "Antibiotics" 1, subhdr "Penicillins" 1,
          rowLine [("Drug", "Amoxicillin")] 1]]
    ∧ (writesThreeFiles goodDoc
          [[hdr "Antibiotics" 1, subhdr "Penicillins" 1,
            rowLine [("Drug", "Amoxicillin")] 1]] true none
       ∧ encodersHaveSpecifiedShape) :=
  ⟨rfl, claim_C9 goodDoc
     [[hdr "Antibiotics" 1, subhdr "Penicillins" 1,
       rowLine [("Drug", "Amoxicillin")] 1]] rfl true none⟩

/-- Claim C10: with `json_only` set, `process_pdf` returns right after
the three JSON writes: its whole effect trace is the three writes (so
`create_excel_from_json` is never called and no `.xlsx` is produced),
the outcome does not depend on how the renderer would have behaved,
and the JSON writes coincide with those of a `json_only = false` run. -/
theorem claim_C10 (doc : PdfDoc) (pages : List (List Line))
    (h : doc.content = Except.ok pages)
    (excelFails excelFails' : Option String) :
    process_pdf doc true excelFails
        = .ok (jsonWrites (extract_structured_data pages))
    ∧ (∀ e ∈ jsonWrites (extract_structured_data pages),
        e.isWriteJson = true)
    ∧ Except.map (List.filter PdfEvent.isWriteJson)
        (process_pdf doc false excelFails')
        = process_pdf doc true excelFails := by
  obtain ⟨stem, content⟩ := doc
  subst h
  refine ⟨rfl, ?_, ?_⟩
  · intro e he
    simp [jsonWrites, List.mem_cons] at he
    rcases he with rfl | rfl | rfl <;> rfl
  · cases excelFails' <;>
      simp [process_pdf, pdfTrace, Except.map, jsonWrites,
        PdfEvent.isWriteJson, List.filter_append, List.filter]

theorem claim_C10_witness :
    goodDoc.content = Except.ok
        [[hdr "Antibiotics" 1, subhdr "Penicillins" 1,
          rowLine [("Drug", "Amoxicillin")] 1]]
    ∧ (process_pdf goodDoc true (some "boom")
          = .ok (jsonWrites (extract_structured_data
              [[hdr "Antibiotics" 1, subhdr "Penicillins" 1,
                rowLine [("Drug", "Amoxicillin")] 1]]))
       ∧ (∀ e ∈ jsonWrites (extract_structured_data
              [[hdr "Antibiotics" 1, subhdr "Penicillins" 1,
                rowLine [("Drug", "Amoxicillin")] 1]]),
            e.isWriteJson = true)
       ∧ Except.map (List.filter PdfEvent.isWriteJson)
            (process_pdf goodDoc false none)
          = process_pdf goodDoc true (some "boom")) :=
  ⟨rfl, claim_C10 goodDoc
     [[hdr "Antibiotics" 1, subhdr "Penicillins" 1,
       rowLine [("Drug", "Amoxicillin")] 1]] rfl (some "boom") none⟩

end Formulary
